import Mathlib

/-!
Verification development for the Peru Congress laws scraper.

This file gives a shallow embedding, in Lean, of the data-cleaning module
(`src/utils/limpieza.py`, class `DataCleaner`), the record validator
(`src/utils/data_validator.py`, class `DataValidator`), and the control flow
of the orchestrator (`src/scraper_enhanced.py`, class
`EnhancedCongresoScraper`), together with theorems settling the specification
claims about those components.

Conventions of the embedding:
* Python strings are Lean `String` / `List Char`; `None`/`NaN` cell values are
  `Option.none`, so a pandas cell is `Option String` and the Python test
  `pd.isna(x) or not x` is `vblank`.
* Python `str.upper` / `str.lower` / `str.strip` are modelled for the
  character repertoire the repository actually uses (ASCII plus the Spanish
  accented letters and `ü`); the regex class `\w` is modelled as ASCII
  alphanumerics, underscore and those accented letters.
* The regexes of the source are compiled by hand into first-match scanners;
  each scanner follows Python leftmost-match semantics for its pattern (for
  the patterns at hand, greedy maximal-munch needs no backtracking, which is
  argued where relevant).
* `datetime.strptime(s, "%d/%m/%Y")` is modelled after CPython `_strptime`
  (day `3[01]|[12]\d|0[1-9]|[1-9]`, month `1[0-2]|0[1-9]|[1-9]`, year
  `\d\d\d\d`, full match, then calendar validity), as `parseStrptimeDMY`.
* Loops indexed by a page/attempt counter are embedded with an explicit fuel
  argument that dominates the loop bound, so everything stays executable.
* `datetime.now()` is passed in explicitly as a `(year, month, day)` triple
  where the source consults it.
-/

/-! ## Character classes and Python string primitives -/

/-- Python `\s` (whitespace) on the characters in scope. -/
def isWsCh (c : Char) : Bool :=
  c.toNat = 32 || c.toNat = 9 || c.toNat = 10 || c.toNat = 13 || c.toNat = 11 || c.toNat = 12

/-- Python `\d`. -/
def isDigitCh (c : Char) : Bool :=
  48 ≤ c.toNat && c.toNat ≤ 57

/-- Numeric value of a digit character. -/
def digitVal (c : Char) : Nat := c.toNat - 48

/-- ASCII `A`-`Z`. -/
def isAsciiUpCh (c : Char) : Bool :=
  65 ≤ c.toNat && c.toNat ≤ 90

/-- ASCII `a`-`z`. -/
def isAsciiLowCh (c : Char) : Bool :=
  97 ≤ c.toNat && c.toNat ≤ 122

/-- Python `str.upper` per character, for ASCII and the Spanish accented letters. -/
def pyUpperChar (c : Char) : Char :=
  if isAsciiLowCh c then Char.ofNat (c.toNat - 32)
  else if c = 'á' then 'Á' else if c = 'é' then 'É' else if c = 'í' then 'Í'
  else if c = 'ó' then 'Ó' else if c = 'ú' then 'Ú' else if c = 'ñ' then 'Ñ'
  else if c = 'ü' then 'Ü' else c

/-- Python `str.lower` per character, for ASCII and the Spanish accented letters. -/
def pyLowerChar (c : Char) : Char :=
  if isAsciiUpCh c then Char.ofNat (c.toNat + 32)
  else if c = 'Á' then 'á' else if c = 'É' then 'é' else if c = 'Í' then 'í'
  else if c = 'Ó' then 'ó' else if c = 'Ú' then 'ú' else if c = 'Ñ' then 'ñ'
  else if c = 'Ü' then 'ü' else c

/-- Python `str.upper` on a character list. -/
def pyUpperL (l : List Char) : List Char := l.map pyUpperChar

/-- Python `str.lower` on a character list. -/
def pyLowerL (l : List Char) : List Char := l.map pyLowerChar

/-- Remove trailing whitespace (the right half of Python `str.strip`). -/
def rstripL : List Char → List Char
  | [] => []
  | c :: cs =>
    let r := rstripL cs
    if r.isEmpty && isWsCh c then [] else c :: r

/-- Python `str.strip`. -/
def pyStripL (l : List Char) : List Char := rstripL (l.dropWhile isWsCh)

/-- Does the second list start with the first one? -/
def startsWithL : List Char → List Char → Bool
  | [], _ => true
  | _ :: _, [] => false
  | a :: as, b :: bs => a = b && startsWithL as bs

/-- Python substring containment `needle in hay`. -/
def containsL : List Char → List Char → Bool
  | hay, needle =>
    if startsWithL needle hay then true
    else
      match hay with
      | [] => false
      | _ :: t => containsL t needle

/-- Python `str.split(",")`: always at least one piece, empty pieces kept. -/
def splitCommaL : List Char → List (List Char)
  | [] => [[]]
  | c :: cs =>
    match splitCommaL cs with
    | [] => [[c]]
    | p :: ps => if c = ',' then [] :: p :: ps else (c :: p) :: ps

/-- Fueled worker for `subAll` (the fuel dominates the list length). -/
def subAllAux (m : List Char → Option Nat) : Nat → List Char → List Char
  | 0, l => l
  | _, [] => []
  | f + 1, c :: cs =>
    match m (c :: cs) with
    | some (n + 1) => subAllAux m f ((c :: cs).drop (n + 1))
    | _ => c :: subAllAux m f cs

/-- Python `re.sub(pat, "", s)` for a pattern matcher `m` that reports the
length of the leftmost match at the head of the list (always positive). -/
def subAll (m : List Char → Option Nat) (l : List Char) : List Char :=
  subAllAux m l.length l

deriving instance DecidableEq for Except

/-! ## DataCleaner (src/utils/limpieza.py) -/

/-- Python `pd.isna(x) or not x` for an optional string cell. -/
def vblank : Option String → Bool
  | none => true
  | some s => s = ""

/-- Underlying string of a non-null cell (`""` for null, matching `record.get(f, "")`). -/
def strOf : Option String → String
  | none => ""
  | some s => s

/-- Matcher for the pattern `\d{2}/\d{2}/\d{4}` anchored at the head of the list. -/
def dateAt : List Char → Option (List Char)
  | a :: b :: '/' :: c :: d :: '/' :: e :: f :: g :: h :: _ =>
    if isDigitCh a && isDigitCh b && isDigitCh c && isDigitCh d &&
       isDigitCh e && isDigitCh f && isDigitCh g && isDigitCh h then
      some [a, b, '/', c, d, '/', e, f, g, h]
    else none
  | _ => none

/-- Leftmost match of `\d{2}/\d{2}/\d{4}`, as found by `re.search` in `limpiar_fecha`. -/
def firstDate : List Char → Option (List Char)
  | [] => none
  | c :: cs =>
    match dateAt (c :: cs) with
    | some m => some m
    | none => firstDate cs

/-- Leap-year test of the Gregorian calendar (as used by `datetime`). -/
def isLeapYear (y : Nat) : Bool :=
  (y % 4 = 0 && y % 100 ≠ 0) || y % 400 = 0

/-- Number of days of month `m` of year `y`. -/
def daysInMonth (y m : Nat) : Nat :=
  if m = 2 then (if isLeapYear y then 29 else 28)
  else if m = 4 || m = 6 || m = 9 || m = 11 then 30
  else 31

/-- Calendar validity as enforced by the `datetime` constructor; result `(y, m, d)`. -/
def mkValidDate (y m d : Nat) : Option (Nat × Nat × Nat) :=
  if 1 ≤ y && y ≤ 9999 && 1 ≤ m && m ≤ 12 && 1 ≤ d && d ≤ daysInMonth y m then
    some (y, m, d)
  else none

/-- Two-digit day as accepted by strptime classes `3[01]|[12]\d|0[1-9]` (values 1..31). -/
def dayOk2 (a b : Char) : Bool :=
  isDigitCh a && isDigitCh b && 1 ≤ 10 * digitVal a + digitVal b &&
    10 * digitVal a + digitVal b ≤ 31

/-- Two-digit month as accepted by strptime classes `1[0-2]|0[1-9]` (values 1..12). -/
def monOk2 (a b : Char) : Bool :=
  isDigitCh a && isDigitCh b && 1 ≤ 10 * digitVal a + digitVal b &&
    10 * digitVal a + digitVal b ≤ 12

/-- One-digit day or month class `[1-9]`. -/
def dig19 (a : Char) : Bool :=
  49 ≤ a.toNat && a.toNat ≤ 57

/-- Four strptime `%Y` digits. -/
def year4 (a b c d : Char) : Bool :=
  isDigitCh a && isDigitCh b && isDigitCh c && isDigitCh d

/-- Numeric value of four year digits. -/
def yearVal (a b c d : Char) : Nat :=
  digitVal a * 1000 + digitVal b * 100 + digitVal c * 10 + digitVal d

/-- CPython `datetime.strptime(s, "%d/%m/%Y")`, full-match, returning `(y, m, d)`.
Because the day and month sub-patterns consume one or two characters and are
followed by the literal `/` at a fixed place, a successful parse forces the
whole input into one of four explicit shapes; the alternations of the CPython
pattern never need cross-shape backtracking (attempting the two-digit and the
one-digit alternative places the following `/` at different indices). -/
def parseStrptimeDMY : List Char → Option (Nat × Nat × Nat)
  | [a, b, '/', c, d, '/', e, f, g, h] =>
    if dayOk2 a b && monOk2 c d && year4 e f g h then
      mkValidDate (yearVal e f g h) (10 * digitVal c + digitVal d) (10 * digitVal a + digitVal b)
    else none
  | [a, b, '/', c, '/', e, f, g, h] =>
    if dayOk2 a b && dig19 c && year4 e f g h then
      mkValidDate (yearVal e f g h) (digitVal c) (10 * digitVal a + digitVal b)
    else none
  | [a, '/', c, d, '/', e, f, g, h] =>
    if dig19 a && monOk2 c d && year4 e f g h then
      mkValidDate (yearVal e f g h) (10 * digitVal c + digitVal d) (digitVal a)
    else none
  | [a, '/', c, '/', e, f, g, h] =>
    if dig19 a && dig19 c && year4 e f g h then
      mkValidDate (yearVal e f g h) (digitVal c) (digitVal a)
    else none
  | _ => none

/-- Strict parse of an exact `DD/MM/YYYY` string with calendar check (used for the
validator's second stage and for `pd.to_datetime(..., format="%d/%m/%Y")` on the
canonical strings `limpiar_fecha` emits). -/
def parseFullDMY : List Char → Option (Nat × Nat × Nat)
  | [a, b, '/', c, d, '/', e, f, g, h] =>
    if isDigitCh a && isDigitCh b && isDigitCh c && isDigitCh d &&
       isDigitCh e && isDigitCh f && isDigitCh g && isDigitCh h then
      mkValidDate (yearVal e f g h) (10 * digitVal c + digitVal d) (10 * digitVal a + digitVal b)
    else none
  | _ => none

/-- Zero-padded two-digit decimal, as produced by `strftime("%d")` / `strftime("%m")`. -/
def pad2 (n : Nat) : String :=
  if n < 10 then "0" ++ toString n else toString n

/-- Zero-padded four-digit decimal, as produced by `strftime("%Y")`. -/
def pad4 (n : Nat) : String :=
  if n < 10 then "000" ++ toString n
  else if n < 100 then "00" ++ toString n
  else if n < 1000 then "0" ++ toString n
  else toString n

/-- Output of `parsed.strftime("%d/%m/%Y")` for a `(y, m, d)` triple. -/
def fmtDMY (ymd : Nat × Nat × Nat) : String :=
  pad2 ymd.2.2 ++ "/" ++ pad2 ymd.2.1 ++ "/" ++ pad4 ymd.1

/-- `DataCleaner.limpiar_fecha` (src/utils/limpieza.py lines 34-57): first
`\d{2}/\d{2}/\d{4}` match verbatim, else a strict `%d/%m/%Y` parse of the raw
string (the source passes the unstripped string to `strptime`), else null. -/
def limpiar_fecha (v : Option String) : Option String :=
  if vblank v then none
  else
    match firstDate (strOf v).data with
    | some m => some (String.mk m)
    | none =>
      match parseStrptimeDMY (strOf v).data with
      | some ymd => some (fmtDMY ymd)
      | none => none

/-- Python word character `\w`, modelled for the repertoire in scope. -/
def isWordCh (c : Char) : Bool :=
  isAsciiUpCh c || isAsciiLowCh c || isDigitCh c || c = '_' ||
  c = 'á' || c = 'é' || c = 'í' || c = 'ó' || c = 'ú' || c = 'ñ' || c = 'ü' ||
  c = 'Á' || c = 'É' || c = 'Í' || c = 'Ó' || c = 'Ú' || c = 'Ñ' || c = 'Ü'

/-- Matcher for `\d+/\d{4}-\w+` anchored at the head.  The greedy `\d+` is
followed by `/` and the greedy `\w+` ends the pattern, so maximal munch is
exact; `\d{4}` is fixed-width, so no backtracking arises. -/
def proyectoAt (l : List Char) : Option (List Char) :=
  let ds := l.takeWhile isDigitCh
  if ds.isEmpty then none
  else
    match l.drop ds.length with
    | '/' :: c1 :: c2 :: c3 :: c4 :: rest =>
      if isDigitCh c1 && isDigitCh c2 && isDigitCh c3 && isDigitCh c4 then
        match rest with
        | '-' :: r4 =>
          let ws := r4.takeWhile isWordCh
          if ws.isEmpty then none
          else some (ds ++ '/' :: c1 :: c2 :: c3 :: c4 :: '-' :: ws)
        | _ => none
      else none
    | _ => none

/-- Leftmost match of `\d+/\d{4}-\w+`, as found by `re.search` in `limpiar_proyecto`. -/
def firstProyecto : List Char → Option (List Char)
  | [] => none
  | c :: cs =>
    match proyectoAt (c :: cs) with
    | some m => some m
    | none => firstProyecto cs

/-- `DataCleaner.limpiar_proyecto` (src/utils/limpieza.py lines 59-77). -/
def limpiar_proyecto (v : Option String) : Option String :=
  if vblank v then none
  else
    match firstProyecto (strOf v).data with
    | some m => some (String.mk m)
    | none => some (String.mk (pyStripL (strOf v).data))

/-- Fueled worker collapsing every whitespace run to one space (`re.sub(r"\s+", " ", .)`). -/
def collapseWsAux : Nat → List Char → List Char
  | 0, l => l
  | _, [] => []
  | f + 1, c :: cs =>
    if isWsCh c then ' ' :: collapseWsAux f (cs.dropWhile isWsCh)
    else c :: collapseWsAux f cs

/-- Python `re.sub(r"\s+", " ", s)`. -/
def collapseWs (l : List Char) : List Char := collapseWsAux l.length l

/-- Character set kept by the title-cleaning regex
`[^\w\s\.,;:()\-áéíóúñüÁÉÍÓÚÑÜ]` (everything else is removed). -/
def tituloAllowed (c : Char) : Bool :=
  isWordCh c || isWsCh c || c = '.' || c = ',' || c = ';' || c = ':' ||
  c = '(' || c = ')' || c = '-'

/-- `DataCleaner.limpiar_titulo` (src/utils/limpieza.py lines 79-94): strip,
collapse whitespace runs, drop characters outside the allowed set. -/
def limpiar_titulo (v : Option String) : String :=
  if vblank v then ""
  else String.mk ((collapseWs (pyStripL (strOf v).data)).filter tituloAllowed)

/-- Party table of `DataCleaner.__init__` (src/utils/limpieza.py lines 16-32),
in Python dict insertion order, variants verbatim (note the accented `Perú`,
`Acción`, ... spellings of the variants). -/
def partidos_politicos : List (String × List String) :=
  [("FREPAP", ["Frente Popular Agrícola del Perú"]),
   ("PERU LIBRE", ["Perú Libre", "Perú Libre - Partido Nacionalista"]),
   ("FUERZA POPULAR", ["Fuerza Popular", "FP"]),
   ("ACCION POPULAR", ["Acción Popular", "AP"]),
   ("ALIANZA PARA EL PROGRESO", ["Alianza para el Progreso", "APP"]),
   ("PODEMOS PERU", ["Podemos Perú", "Podemos"]),
   ("AVANZA PAIS", ["Avanza País", "Avanza"]),
   ("RENOVACION POPULAR", ["Renovación Popular", "RP"]),
   ("SOMOS PERU", ["Somos Perú", "Somos"]),
   ("UNION POR EL PERU", ["Unión por el Perú", "UPP"]),
   ("PARTIDO MORADO", ["Partido Morado", "Morado"]),
   ("JUNTOS POR EL PERU", ["Juntos por el Perú", "JPP"]),
   ("FRENTE AMPLIO", ["Frente Amplio", "FA"]),
   ("CONFIEP", ["Confederación Nacional de Instituciones Empresariales Privadas"]),
   ("INDEPENDIENTE", ["Independiente", "Independientes"])]

/-- Inner loops of `extraer_partido_politico`: first party one of whose
uppercased variants occurs in the uppercased author text. -/
def findPartido : List (String × List String) → List Char → Option String
  | [], _ => none
  | (p, vs) :: rest, up =>
    if vs.any (fun v => containsL up (pyUpperL v.data)) then some p
    else findPartido rest up

/-- `DataCleaner.extraer_partido_politico` (src/utils/limpieza.py lines 96-120). -/
def extraer_partido_politico (a : Option String) : Option String :=
  if vblank a then none
  else
    let up := pyUpperL (strOf a).data
    match findPartido partidos_politicos up with
    | some p => some p
    | none =>
      if containsL up "INDEPENDIENTE".data || containsL up "INDEPENDIENTES".data then
        some "INDEPENDIENTE"
      else some "DESCONOCIDO"

/-- Matcher for `\s+ver\s+más\.{3,}` (IGNORECASE) at the head of a list; the
whitespace runs and the dot run are maximal-munch, which is exact here. -/
def matchVerMas (l : List Char) : Option Nat :=
  let ws1 := l.takeWhile isWsCh
  if ws1.isEmpty then none
  else
    match l.drop ws1.length with
    | v :: e :: r :: rest =>
      if pyLowerChar v = 'v' && pyLowerChar e = 'e' && pyLowerChar r = 'r' then
        let ws2 := rest.takeWhile isWsCh
        if ws2.isEmpty then none
        else
          match rest.drop ws2.length with
          | m :: a :: s :: rest2 =>
            if pyLowerChar m = 'm' && pyLowerChar a = 'á' && pyLowerChar s = 's' then
              let dots := rest2.takeWhile (fun c => c = '.')
              if 3 ≤ dots.length then
                some (ws1.length + 3 + ws2.length + 3 + dots.length)
              else none
            else none
          | _ => none
      else none
    | _ => none

/-- Matcher for `\s+\.{3,}` at the head of a list. -/
def matchWsDots (l : List Char) : Option Nat :=
  let ws := l.takeWhile isWsCh
  if ws.isEmpty then none
  else
    let dots := (l.drop ws.length).takeWhile (fun c => c = '.')
    if 3 ≤ dots.length then some (ws.length + dots.length) else none

/-- Per-author cleanup of `limpiar_autores`: the two `re.sub` deletions, then strip. -/
def cleanAuthorTok (t : List Char) : List Char :=
  pyStripL (subAll matchWsDots (subAll matchVerMas t))

/-- `DataCleaner.limpiar_autores` (src/utils/limpieza.py lines 122-149). -/
def limpiar_autores (v : Option String) : List String :=
  if vblank v then []
  else
    let toks := ((splitCommaL (strOf v).data).map pyStripL).filter (fun t => !t.isEmpty)
    (((toks.map cleanAuthorTok).filter (fun t => !t.isEmpty)).map String.mk)

/-- Category table of `clasificar_tipo_proyecto` (src/utils/limpieza.py lines
162-173), in Python dict insertion order, keywords verbatim. -/
def categorias : List (String × List String) :=
  [("EDUCACION", ["EDUCACIÓN", "EDUCATIVO", "UNIVERSIDAD", "INSTITUTO", "COLEGIO", "ESCUELA", "ESTUDIANTE"]),
   ("SALUD", ["SALUD", "MÉDICO", "HOSPITAL", "MEDICINA", "ENFERMO", "PACIENTE", "SANITARIO"]),
   ("TRABAJO", ["TRABAJO", "TRABAJADOR", "EMPLEO", "LABORAL", "SALARIO", "SUELDO", "RÉGIMEN LABORAL"]),
   ("ECONOMIA", ["ECONÓMICO", "ECONOMÍA", "FINANCIERO", "PRESUPUESTO", "INVERSIÓN", "DESARROLLO ECONÓMICO"]),
   ("INFRAESTRUCTURA", ["CARRETERA", "PUENTE", "CONSTRUCCIÓN", "OBRA", "INFRAESTRUCTURA", "RUTA"]),
   ("CULTURA", ["CULTURAL", "PATRIMONIO", "CULTURA", "TRADICIÓN", "FESTIVIDAD", "ARTE"]),
   ("AMBIENTE", ["AMBIENTAL", "MEDIO AMBIENTE", "CONTAMINACIÓN", "ECOLOGÍA", "NATURALEZA"]),
   ("SEGURIDAD", ["SEGURIDAD", "POLICÍA", "DEFENSA", "CRIMEN", "DELITO", "JUSTICIA"]),
   ("SOCIAL", ["SOCIAL", "POBREZA", "VULNERABLE", "DISCAPACIDAD", "ADULTO MAYOR", "NIÑO"]),
   ("ADMINISTRATIVO", ["ADMINISTRATIVO", "FUNCIONARIO", "SERVIDOR PÚBLICO", "RÉGIMEN", "NOMBRAMIENTO"])]

/-- Loop of `clasificar_tipo_proyecto`: first category one of whose keywords
occurs in the uppercased title, else `OTROS`. -/
def findCat : List (String × List String) → List Char → String
  | [], _ => "OTROS"
  | (name, kws) :: rest, up =>
    if kws.any (fun k => containsL up k.data) then name else findCat rest up

/-- `DataCleaner.clasificar_tipo_proyecto` (src/utils/limpieza.py lines 151-183). -/
def clasificar_tipo_proyecto (t : Option String) : String :=
  if vblank t then "DESCONOCIDO"
  else findCat categorias (pyUpperL (strOf t).data)

/-- Region list of `extraer_region` (src/utils/limpieza.py lines 196-201). -/
def regiones : List String :=
  ["LIMA", "AREQUIPA", "CUSCO", "LA LIBERTAD", "PIURA", "JUNÍN", "CAJAMARCA",
   "LAMBAYEQUE", "ANCASH", "PUNO", "HUÁNUCO", "ICA", "LORETO", "SAN MARTÍN",
   "TACNA", "UCAYALI", "AYACUCHO", "MOQUEGUA", "PASCO", "TUMBES", "HUANCAVELICA",
   "APURÍMAC", "MADRE DE DIOS", "CALLAO"]

/-- Loop of `extraer_region`: first region occurring in the uppercased title. -/
def findRegion : List String → List Char → Option String
  | [], _ => none
  | r :: rest, up => if containsL up r.data then some r else findRegion rest up

/-- `DataCleaner.extraer_region` (src/utils/limpieza.py lines 185-211). -/
def extraer_region (t : Option String) : Option String :=
  if vblank t then none
  else findRegion regiones (pyUpperL (strOf t).data)

/-- Sakamoto weekday table. -/
def sakamotoT : List Nat := [0, 3, 2, 5, 0, 3, 5, 1, 4, 6, 2, 4]

/-- Weekday of a Gregorian date, 0 = Sunday (Sakamoto's method). -/
def weekdayOf (y m d : Nat) : Nat :=
  let y2 := if m < 3 then y - 1 else y
  (y2 + y2 / 4 - y2 / 100 + y2 / 400 + sakamotoT.getD (m - 1) 0 + d) % 7

/-- English day names as produced by pandas `Series.dt.day_name()`. -/
def dayNames : List String :=
  ["Sunday", "Monday", "Tuesday", "Wednesday", "Thursday", "Friday", "Saturday"]

/-- The `estado_limpio` column of `limpiar_dataframe`:
`df["estado"].str.strip().str.upper()` (null stays null). -/
def estado_limpio_of (e : Option String) : Option String :=
  e.map (fun s => String.mk (pyUpperL (pyStripL s.data)))

/-- One raw scraped record: the six free-text columns of the batch, a cell
being `none` when the pandas value is `NaN`. -/
structure RawRecord where
  proyecto : Option String
  fecha : Option String
  titulo : Option String
  estado : Option String
  proponente : Option String
  autores : Option String
deriving DecidableEq, Repr

/-- One row of the output of `DataCleaner.limpiar_dataframe`: the raw columns
plus every derived column the source adds. -/
structure CleanRow where
  raw : RawRecord
  fecha_limpia : Option String
  proyecto_limpio : Option String
  titulo_limpio : String
  partido_politico : Option String
  autores_limpios : List String
  num_autores : Nat
  tipo_proyecto : String
  region : Option String
  fecha_datetime : Option (Nat × Nat × Nat)
  anio : Option Nat
  mes : Option Nat
  dia_semana : Option String
  estado_limpio : Option String
deriving DecidableEq, Repr

/-- Per-row content of `DataCleaner.limpiar_dataframe` (src/utils/limpieza.py
lines 213-263); the original columns are kept unchanged alongside. -/
def limpiarRow (r : RawRecord) : CleanRow :=
  let fl := limpiar_fecha r.fecha
  let tl := limpiar_titulo r.titulo
  let al := limpiar_autores r.autores
  let fd := fl.bind (fun f => parseFullDMY f.data)
  { raw := r
    fecha_limpia := fl
    proyecto_limpio := limpiar_proyecto r.proyecto
    titulo_limpio := tl
    partido_politico := extraer_partido_politico r.autores
    autores_limpios := al
    num_autores := al.length
    tipo_proyecto := clasificar_tipo_proyecto (some tl)
    region := extraer_region (some tl)
    fecha_datetime := fd
    anio := fd.map (fun x => x.1)
    mes := fd.map (fun x => x.2.1)
    dia_semana := fd.map (fun x => dayNames.getD (weekdayOf x.1 x.2.1 x.2.2) "")
    estado_limpio := estado_limpio_of r.estado }

/-- `DataCleaner.limpiar_dataframe` over a batch of rows. -/
def limpiar_dataframe (rs : List RawRecord) : List CleanRow :=
  rs.map limpiarRow

/-! ## DataValidator (src/utils/data_validator.py) -/

/-- Result of one single-string field validator of `DataValidator`. -/
structure FieldResult where
  is_valid : Bool
  errors : List String
  warnings : List String
  cleaned : Option String
deriving DecidableEq, Repr

/-- Result of `DataValidator.validate_autores` (its cleaned value is a list). -/
structure AutoresResult where
  is_valid : Bool
  errors : List String
  warnings : List String
  cleaned : Option (List String)
deriving DecidableEq, Repr

/-- Full match of `^\d+/\d{4}-[A-Z]{2}$` (the `proyecto` pattern). -/
def proyectoPatFull (l : List Char) : Bool :=
  let ds := l.takeWhile isDigitCh
  !ds.isEmpty &&
    match l.drop ds.length with
    | ['/', c1, c2, c3, c4, '-', u1, u2] =>
      isDigitCh c1 && isDigitCh c2 && isDigitCh c3 && isDigitCh c4 &&
      isAsciiUpCh u1 && isAsciiUpCh u2
    | _ => false

/-- `DataValidator.validate_proyecto` (src/utils/data_validator.py lines 47-61). -/
def validate_proyecto (p : Option String) : FieldResult :=
  if vblank p then ⟨false, ["Número de proyecto es requerido"], [], none⟩
  else
    let ps := String.mk (pyStripL (strOf p).data)
    ⟨true, [],
      if proyectoPatFull ps.data then [] else ["Formato de proyecto inusual: " ++ ps],
      some ps⟩

/-- Full match of `^\d{2}/\d{2}/\d{4}$` (the `fecha` pattern). -/
def fullFechaShape : List Char → Bool
  | [a, b, '/', c, d, '/', e, f, g, h] =>
    isDigitCh a && isDigitCh b && isDigitCh c && isDigitCh d &&
    isDigitCh e && isDigitCh f && isDigitCh g && isDigitCh h
  | _ => false

/-- `DataValidator.validate_fecha` (src/utils/data_validator.py lines 63-88). -/
def validate_fecha (v : Option String) : FieldResult :=
  if vblank v then ⟨false, ["Fecha es requerida"], [], none⟩
  else
    let fs := String.mk (pyStripL (strOf v).data)
    if !fullFechaShape fs.data then ⟨false, ["Formato de fecha inválido: " ++ fs], [], none⟩
    else
      match parseFullDMY fs.data with
      | none => ⟨false, ["Fecha inválida: " ++ fs], [], none⟩
      | some (y, _, _) =>
        ⟨true, [],
          if y < 2000 || 2030 < y then ["Año inusual: " ++ toString y] else [],
          some fs⟩

/-- `DataValidator.validate_titulo` (src/utils/data_validator.py lines 90-110). -/
def validate_titulo (v : Option String) : FieldResult :=
  if vblank v then ⟨false, ["Título es requerido"], [], none⟩
  else
    let ts := String.mk (pyStripL (strOf v).data)
    let low := String.mk (pyLowerL ts.data)
    ⟨true, [],
      (if ts.data.length < 10 then ["Título muy corto"]
       else if 500 < ts.data.length then ["Título muy largo"] else []) ++
      (if low = "test" || low = "prueba" || low = "ejemplo" then
        ["Título parece ser de prueba"] else []),
      some ts⟩

/-- Full match of `^[A-ZÁÉÍÓÚÑ\s]+$` (the `estado`/`proponente` pattern). -/
def estadoPatFull (l : List Char) : Bool :=
  !l.isEmpty && l.all (fun c =>
    isAsciiUpCh c || c = 'Á' || c = 'É' || c = 'Í' || c = 'Ó' || c = 'Ú' || c = 'Ñ' || isWsCh c)

/-- Known states of `DataValidator.__init__`. -/
def valid_states : List String :=
  ["ENVIADO", "RECIBIDO", "DERIVADO", "OBSERVADO", "APROBADO",
   "RECHAZADO", "ARCHIVADO", "RETIRADO", "PRESENTADO", "PUBLICADO"]

/-- `DataValidator.validate_estado` (src/utils/data_validator.py lines 112-129). -/
def validate_estado (v : Option String) : FieldResult :=
  if vblank v then ⟨false, ["Estado es requerido"], [], none⟩
  else
    let es := String.mk (pyUpperL (pyStripL (strOf v).data))
    ⟨true, [],
      (if estadoPatFull es.data then [] else ["Estado con caracteres inusuales: " ++ es]) ++
      (if valid_states.contains es then [] else ["Estado no reconocido: " ++ es]),
      some es⟩

/-- Known proponent substrings of `DataValidator.__init__`. -/
def valid_proponents : List String :=
  ["CONGRESO", "CONGRESISTA", "CONGRESISTAS", "PRESIDENTE",
   "COMISION", "MESA DIRECTIVA", "GRUPO PARLAMENTARIO"]

/-- `DataValidator.validate_proponente` (src/utils/data_validator.py lines 131-150). -/
def validate_proponente (v : Option String) : FieldResult :=
  if vblank v then ⟨false, ["Proponente es requerido"], [], none⟩
  else
    let ps := String.mk (pyUpperL (pyStripL (strOf v).data))
    ⟨true, [],
      (if estadoPatFull ps.data then [] else ["Proponente con caracteres inusuales: " ++ ps]) ++
      (if valid_proponents.any (fun k => containsL ps.data k.data) then []
       else ["Tipo de proponente no reconocido: " ++ ps]),
      some ps⟩

/-- Python condition `autor and len(autor) > 2` keeping an author token. -/
def authTokOk (t : List Char) : Bool :=
  !t.isEmpty && decide (2 < t.length)

/-- Warning text emitted when an author token is dropped. -/
def authMsg (t : List Char) : String :=
  "Autor inválido o muy corto: \x27" ++ String.mk t ++ "\x27"

/-- Token loop of `validate_autores`: kept tokens and drop warnings, in order. -/
def authorsLoop : List (List Char) → List (List Char) × List String
  | [] => ([], [])
  | t :: ts =>
    let r := authorsLoop ts
    if authTokOk t then (t :: r.1, r.2) else (r.1, authMsg t :: r.2)

/-- `DataValidator.validate_autores` (src/utils/data_validator.py lines 152-184). -/
def validate_autores (v : Option String) : AutoresResult :=
  if vblank v then ⟨true, [], ["Lista de autores vacía"], some []⟩
  else
    let s := pyStripL (strOf v).data
    let low := pyLowerL s
    let w1 := if s.length < 3 then ["Lista de autores muy corta"] else []
    let w2 :=
      if containsL low "test".data || containsL low "prueba".data then
        ["Lista de autores parece ser de prueba"]
      else []
    let toks := (splitCommaL s).map pyStripL
    let r := authorsLoop toks
    if r.1.isEmpty then ⟨false, ["No se encontraron autores válidos"], w1 ++ w2 ++ r.2, none⟩
    else ⟨true, [], w1 ++ w2 ++ r.2, some (r.1.map String.mk)⟩

/-- Cleaned values assembled by `validate_record` (one key per field validator
that returned cleaned data; validators that rejected contribute nothing). -/
structure CleanedData where
  proyecto : Option String
  fecha : Option String
  titulo : Option String
  estado : Option String
  proponente : Option String
  autores : Option (List String)
deriving DecidableEq, Repr

/-- Result of `DataValidator.validate_record`. -/
structure RecordResult where
  is_valid : Bool
  errors : List String
  warnings : List String
  cleaned : CleanedData
deriving DecidableEq, Repr

/-- Field tagging `f"{field_name}: {msg}"` applied to a message list. -/
def tagWith (f : String) (msgs : List String) : List String :=
  msgs.map (fun m => f ++ ": " ++ m)

/-- Strict `datetime` comparison `a < b` on `(y, m, d)` triples. -/
def dmyLt (a b : Nat × Nat × Nat) : Bool :=
  a.1 < b.1 || (a.1 = b.1 && (a.2.1 < b.2.1 || (a.2.1 = b.2.1 && a.2.2 < b.2.2)))

/-- Warnings computed by `DataValidator._validate_cross_fields`
(src/utils/data_validator.py lines 220-248) on a record whose `fecha`,
`titulo` and `estado` cells are strings — the regime in which the helper
only appends warnings.  `today` stands for `datetime.now()`. -/
def cross_warn_list (today : Nat × Nat × Nat) (r : RawRecord) : List String :=
  let dateWs :=
    if vblank r.fecha then []
    else
      match parseStrptimeDMY (strOf r.fecha).data with
      | some ymd =>
        (if dmyLt today ymd then ["Fecha en el futuro"] else []) ++
        (if ymd.1 < 2010 then ["Fecha muy antigua"] else [])
      | none => []
  let tl := pyLowerL (strOf r.titulo).data
  let el := pyLowerL (strOf r.estado).data
  dateWs ++
    (if containsL el "archivado".data && containsL tl "nuevo".data then
      ["Proyecto archivado pero título sugiere que es nuevo"]
    else [])

/-- Message of the `TypeError` raised by `datetime.strptime` on the float NaN. -/
def strptimeTypeErr : String :=
  "TypeError: strptime() argument 1 must be str, not float"

/-- Message of the `AttributeError` raised by `.lower()` on the float NaN. -/
def lowerAttrErr : String :=
  "AttributeError: \x27float\x27 object has no attribute \x27lower\x27"

/-- `DataValidator._validate_cross_fields` (src/utils/data_validator.py lines
220-248) with its crash paths explicit.  A `none` cell models the pandas
missing value NaN (the float `nan`).  That float is truthy, so a `none`
`fecha` passes `if fecha:` and reaches `datetime.strptime`, which raises
`TypeError` — the handler catches only `ValueError`; next,
`record.get("titulo", "").lower()` and then the same on `estado` raise
`AttributeError` on the non-string.  On string cells (empty ones included:
`""` is falsy and `"".lower()` is fine) nothing raises and the helper only
appends warnings, never errors. -/
def cross_warnings (today : Nat × Nat × Nat) (r : RawRecord) :
    Except String (List String) :=
  if r.fecha = none then Except.error strptimeTypeErr
  else if r.titulo = none then Except.error lowerAttrErr
  else if r.estado = none then Except.error lowerAttrErr
  else Except.ok (cross_warn_list today r)

/-- Validation result assembled by `validate_record` when the cross-field
step returned its warnings `cw` without raising.  The source extends the
record errors only when a field result `is_valid` is false; every field
validator returns a nonempty error list exactly when it is invalid, so the
unconditional concatenation below is the same list. -/
def record_result (r : RawRecord) (cw : List String) : RecordResult :=
  let rp := validate_proyecto r.proyecto
  let rf := validate_fecha r.fecha
  let rt := validate_titulo r.titulo
  let rs := validate_estado r.estado
  let rq := validate_proponente r.proponente
  let ra := validate_autores r.autores
  let errs :=
    tagWith "proyecto" rp.errors ++ tagWith "fecha" rf.errors ++
    tagWith "titulo" rt.errors ++ tagWith "estado" rs.errors ++
    tagWith "proponente" rq.errors ++ tagWith "autores" ra.errors
  let warns :=
    tagWith "proyecto" rp.warnings ++ tagWith "fecha" rf.warnings ++
    tagWith "titulo" rt.warnings ++ tagWith "estado" rs.warnings ++
    tagWith "proponente" rq.warnings ++ tagWith "autores" ra.warnings ++
    cw
  { is_valid := errs.isEmpty
    errors := errs
    warnings := warns
    cleaned :=
      { proyecto := rp.cleaned, fecha := rf.cleaned, titulo := rt.cleaned
        estado := rs.cleaned, proponente := rq.cleaned, autores := ra.cleaned } }

/-- `DataValidator.validate_record` (src/utils/data_validator.py lines
186-218).  The six field validators never raise (each tests `pd.isna` before
touching the value); the cross-field step may raise, and the exception
propagates to the caller, discarding the errors and warnings collected so
far, so the result is `Except`-valued. -/
def validate_record (today : Nat × Nat × Nat) (r : RawRecord) :
    Except String RecordResult :=
  (cross_warnings today r).map (record_result r)

/-- Aggregate report built by `validate_dataframe`. -/
structure Report where
  total_records : Nat
  valid_records : Nat
  invalid_records : Nat
  total_errors : Nat
  total_warnings : Nat
  field_errors : List (String × Nat)
  field_warnings : List (String × Nat)
deriving DecidableEq, Repr

/-- Python `msg.split(":")[0]`. -/
def keyOf (e : String) : String :=
  String.mk (e.data.takeWhile (fun c => c ≠ ':'))

/-- Increment of one key of a Python dict modelled as an insertion-ordered list. -/
def bumpKey : List (String × Nat) → String → List (String × Nat)
  | [], k => [(k, 1)]
  | (a, n) :: t, k => if a = k then (a, n + 1) :: t else (a, n) :: bumpKey t k

/-- Fold of `bumpKey` over a list of message keys. -/
def bumpKeys (m : List (String × Nat)) (ks : List String) : List (String × Nat) :=
  ks.foldl bumpKey m

/-- Row loop of `validate_dataframe`.  A raise inside `validate_record`
propagates — the source loop has no handler — and the partial report is
lost to the caller. -/
def vdfAux (today : Nat × Nat × Nat) :
    List RawRecord → Report → Except String (List CleanedData × Report)
  | [], rep => Except.ok ([], rep)
  | r :: rs, rep =>
    match validate_record today r with
    | Except.error e => Except.error e
    | Except.ok res =>
      let rep2 : Report :=
        { rep with
          valid_records := rep.valid_records + (if res.is_valid then 1 else 0)
          invalid_records := rep.invalid_records + (if res.is_valid then 0 else 1)
          total_errors := rep.total_errors + res.errors.length
          total_warnings := rep.total_warnings + res.warnings.length
          field_errors := bumpKeys rep.field_errors (res.errors.map keyOf)
          field_warnings := bumpKeys rep.field_warnings (res.warnings.map keyOf) }
      match vdfAux today rs rep2 with
      | Except.error e => Except.error e
      | Except.ok rest =>
        Except.ok ((if res.is_valid then [res.cleaned] else []) ++ rest.1, rest.2)

/-- `DataValidator.validate_dataframe` (src/utils/data_validator.py lines
250-291): the surviving cleaned records (in order) and the report, unless a
row made `validate_record` raise. -/
def validate_dataframe (today : Nat × Nat × Nat) (rows : List RawRecord) :
    Except String (List CleanedData × Report) :=
  vdfAux today rows ⟨rows.length, 0, 0, 0, 0, [], []⟩

/-! ## EnhancedCongresoScraper (src/scraper_enhanced.py) -/

/-- Class of `[A-ZÁÉÍÓÚÑ\s]`, the capture group of `_clean_estado`. -/
def isEstadoClassCh (c : Char) : Bool :=
  isAsciiUpCh c || c = 'Á' || c = 'É' || c = 'Í' || c = 'Ó' || c = 'Ú' || c = 'Ñ' || isWsCh c

/-- Leftmost maximal run of `[A-ZÁÉÍÓÚÑ\s]+`, as found by `re.search`. -/
def firstEstadoRun : List Char → Option (List Char)
  | [] => none
  | c :: cs =>
    if isEstadoClassCh c then some ((c :: cs).takeWhile isEstadoClassCh)
    else firstEstadoRun cs

/-- `EnhancedCongresoScraper._clean_estado` (src/scraper_enhanced.py lines
557-564): the first `[A-ZÁÉÍÓÚÑ\s]+` run, stripped; else the stripped input. -/
def clean_estado (estado : String) : String :=
  if estado = "" then ""
  else
    match firstEstadoRun estado.data with
    | some r => String.mk (pyStripL r)
    | none => String.mk (pyStripL estado.data)

/-- `EnhancedCongresoScraper._clean_proponente` (src/scraper_enhanced.py lines
566-573), same regex as `_clean_estado`. -/
def clean_proponente (p : String) : String :=
  if p = "" then ""
  else
    match firstEstadoRun p.data with
    | some r => String.mk (pyStripL r)
    | none => String.mk (pyStripL p.data)

/-- Mutable statistics dict of `EnhancedCongresoScraper.__init__` (lines 58-66). -/
structure RunStats where
  pages_scraped : Nat := 0
  projects_found : Nat := 0
  errors_encountered : Nat := 0
  retries_performed : Nat := 0
  start_time : Option Nat := none
  end_time : Option Nat := none
deriving DecidableEq, Repr

/-- Fresh statistics at construction time. -/
def initStats : RunStats := {}

/-- `EnhancedCongresoScraper.get_statistics` (lines 652-664): a copy of the
stats plus the derived duration. -/
def get_statistics (s : RunStats) : RunStats × Option Nat :=
  (s,
    match s.start_time, s.end_time with
    | some a, some b => some (b - a)
    | _, _ => none)

/-- Behaviour of the browser as observed while standing on page `n` (1-based):
what `_scrape_current_page` returns, whether the per-page body raises, and the
state of the next-page paginator button. -/
structure PageEnv where
  rows : Nat → List RawRecord
  pageRaises : Nat → Bool
  nextBtnPresent : Nat → Bool
  nextEnabled : Nat → Bool
  nextAria : Nat → Option String
  goNextOk : Nat → Bool

/-- `EnhancedCongresoScraper._has_next_page` (lines 575-587): false when the
button is absent (`NoSuchElementException`), disabled, or `aria-disabled="true"`. -/
def has_next_page (e : PageEnv) (n : Nat) : Bool :=
  if e.nextBtnPresent n then e.nextEnabled n && !(e.nextAria n == some "true")
  else false

/-- Fueled worker for the `while page_num <= max_pages` loop of
`_scrape_all_pages` (lines 382-423); the fuel strictly dominates the page cap,
so the zero-fuel branch is never taken from `scrape_all_pages`. -/
def scrapeAllPagesAux (e : PageEnv) (maxPages : Nat) :
    Nat → Nat → List RawRecord → RunStats → List RawRecord × RunStats
  | 0, _, acc, st => (acc, st)
  | fuel + 1, pageNum, acc, st =>
    if maxPages < pageNum then (acc, st)
    else if e.pageRaises pageNum then
      (acc, { st with errors_encountered := st.errors_encountered + 1 })
    else if (e.rows pageNum).isEmpty then (acc, st)
    else
      let acc2 := acc ++ e.rows pageNum
      let st2 := { st with pages_scraped := st.pages_scraped + 1 }
      if has_next_page e pageNum then
        if e.goNextOk pageNum then scrapeAllPagesAux e maxPages fuel (pageNum + 1) acc2 st2
        else (acc2, st2)
      else (acc2, st2)

/-- `EnhancedCongresoScraper._scrape_all_pages`, started on page 1. -/
def scrape_all_pages (e : PageEnv) (maxPages : Nat) (st : RunStats) :
    List RawRecord × RunStats :=
  scrapeAllPagesAux e maxPages (maxPages + 1) 1 [] st

/-- Outcome of one click attempt inside `_safe_click`: success, the two
retryable Selenium exceptions, or any other exception. -/
inductive ClickOutcome where
  | success
  | intercepted
  | stale
  | failure
deriving DecidableEq, Repr

/-- Attempt loop of `_safe_click` (lines 156-182).  `fuel` is the number of
attempts still available (initially `max_retries`); the last component counts
the retry attempts actually begun after a retryable failure — an observer of
the loop, mirrored nowhere into the statistics, exactly as in the source. -/
def safeClickAux (oracle : Nat → ClickOutcome) : Nat → Nat → Nat → Bool × Nat
  | 0, _, retries => (false, retries)
  | fuel + 1, attempt, retries =>
    match oracle attempt with
    | .success => (true, retries)
    | .intercepted =>
      if fuel = 0 then (false, retries)
      else safeClickAux oracle fuel (attempt + 1) (retries + 1)
    | .stale =>
      if fuel = 0 then (false, retries)
      else safeClickAux oracle fuel (attempt + 1) (retries + 1)
    | .failure => (false, retries)

/-- `EnhancedCongresoScraper._safe_click`: result, the (untouched) statistics,
and the number of retries the loop actually performed. -/
def safe_click (oracle : Nat → ClickOutcome) (maxRetries : Nat) (st : RunStats) :
    Bool × RunStats × Nat :=
  let r := safeClickAux oracle maxRetries 0 0
  (r.1, st, r.2)

/-- Environment of one `scrape()` run: results of the internal steps.  Steps
whose source wraps every statement in a catch-all handler are booleans (they
cannot raise); `_wait_for_page_load` only catches `TimeoutException`, so it —
standing for anything unexpected slipping through the middle of the run — is
`Except`-valued. -/
structure ScrapeEnv where
  connectionOk : Bool
  navigateOk : Bool
  waitLoad : Except String Unit
  openFiltersOk : Bool
  setDatesOk : Bool
  execSearchOk : Bool
  pages : PageEnv
  maxPages : Nat
  validateKeeps : List RawRecord → List RawRecord
  t0 : Nat
  t1 : Nat

/-- Body of the `try:` block of `EnhancedCongresoScraper.scrape` (lines
225-279), threading the mutable statistics through every step so that partial
mutations survive an exception. -/
def scrapeBody (env : ScrapeEnv) (st : RunStats) :
    Except String (List RawRecord) × RunStats :=
  if !env.connectionOk then (Except.ok [], st)
  else if !env.navigateOk then (Except.ok [], st)
  else
    match env.waitLoad with
    | Except.error e => (Except.error e, st)
    | Except.ok _ =>
      if !env.openFiltersOk then (Except.ok [], st)
      else if !env.setDatesOk then (Except.ok [], st)
      else if !env.execSearchOk then (Except.ok [], st)
      else
        let r := scrape_all_pages env.pages env.maxPages st
        let ps := if r.1.isEmpty then r.1 else env.validateKeeps r.1
        (Except.ok ps,
          { r.2 with end_time := some env.t1, projects_found := ps.length })

/-- `EnhancedCongresoScraper.scrape` (lines 214-289): sets `start_time`, runs
the body, and the single top-level `except Exception` converts any raised
error into an empty result with `errors_encountered` incremented. -/
def scrape (env : ScrapeEnv) (st0 : RunStats) :
    Except String (List RawRecord × RunStats) :=
  let st1 := { st0 with start_time := some env.t0 }
  match scrapeBody env st1 with
  | (Except.ok ps, st) => Except.ok (ps, st)
  | (Except.error _, st) =>
    Except.ok ([], { st with errors_encountered := st.errors_encountered + 1 })

/-! ## Concrete inputs used by the claim theorems -/

/-- Row A of the end-to-end scenario of the specification. -/
def rowA : RawRecord :=
  { proyecto := some "Proyecto de Ley 12345/2024-CR"
    fecha := some "Fecha de Presentación15/06/2024"
    titulo := some "Ley de Reforma Educativa"
    estado := some "APROBADO"
    proponente := some "CONGRESO"
    autores := some "Juan Pérez - PERU LIBRE" }

/-- Row B of the end-to-end scenario of the specification. -/
def rowB : RawRecord :=
  { proyecto := some "", fecha := some "15/06/2024", titulo := some "x"
    estado := some "APROBADO", proponente := some "CONGRESO", autores := some "" }

/-- The two-row batch of the end-to-end scenario. -/
def batchC1 : List RawRecord := [rowA, rowB]

/-- A fixed `datetime.now()` for the scenario run (any date on or after the
batch dates; validity and the report counts do not depend on it). -/
def today0 : Nat × Nat × Nat := (2025, 6, 16)

/-- The claimed pipeline: `limpiar_dataframe` then `validate_dataframe` (the
validator reads exactly the six raw columns of each row, which
`limpiar_dataframe` carries through unchanged in `CleanRow.raw`). -/
def pipelineC1 : Except String (List CleanedData × Report) :=
  validate_dataframe today0 ((limpiar_dataframe batchC1).map (fun c => c.raw))

/-- A record whose author cell is empty (the partido-null counterexample). -/
def rowC2 : RawRecord :=
  { proyecto := some "12345/2024-CR", fecha := some "15/06/2024"
    titulo := some "Ley de Salud Pública", estado := some "APROBADO"
    proponente := some "CONGRESO", autores := some "" }

/-- A record with an empty bill id (and everything else well-formed). -/
def recC5empty : RawRecord :=
  { proyecto := some "", fecha := some "15/06/2024"
    titulo := some "Ley de Reforma Educativa", estado := some "APROBADO"
    proponente := some "CONGRESO", autores := some "Juan Pérez" }

/-- A record whose only defect is an empty authors cell. -/
def recC5autores : RawRecord :=
  { proyecto := some "12345/2024-CR", fecha := some "15/06/2024"
    titulo := some "Ley de Reforma Educativa", estado := some "APROBADO"
    proponente := some "CONGRESO", autores := some "" }

/-- A record with an empty bill id whose `fecha` cell is the pandas missing
value NaN: the cross-field step raises on it, so it is never classified. -/
def recC5nan : RawRecord :=
  { proyecto := some "", fecha := none
    titulo := some "Ley de Reforma Educativa", estado := some "APROBADO"
    proponente := some "CONGRESO", autores := some "Juan Pérez" }

/-- A well-formed record whose author tokens are all at most two characters. -/
def recC6 : RawRecord :=
  { proyecto := some "12345/2024-CR", fecha := some "15/06/2024"
    titulo := some "Ley de Reforma Educativa", estado := some "APROBADO"
    proponente := some "CONGRESO", autores := some "ab" }

/-- A one-record page for the pagination witness. -/
def recC7 : RawRecord :=
  { proyecto := some "1/2024-CR", fecha := some "15/06/2024", titulo := some "Ley"
    estado := some "APROBADO", proponente := some "CONGRESO", autores := some "A B" }

/-- Navigator simulation for the pagination witness: nonempty pages, next-page
control enabled on pages 1 and 2, disabled from page 3 on. -/
def envC7 : PageEnv :=
  { rows := fun _ => [recC7]
    pageRaises := fun _ => false
    nextBtnPresent := fun _ => true
    nextEnabled := fun n => decide (n < 3)
    nextAria := fun _ => none
    goNextOk := fun _ => true }

/-- Trivial page environment for the orchestrator witness. -/
def pagesC8 : PageEnv :=
  { rows := fun _ => [], pageRaises := fun _ => false, nextBtnPresent := fun _ => false
    nextEnabled := fun _ => false, nextAria := fun _ => none, goNextOk := fun _ => false }

/-- Run environment whose page-load wait raises an unexpected error. -/
def envC8 : ScrapeEnv :=
  { connectionOk := true, navigateOk := true, waitLoad := Except.error "boom"
    openFiltersOk := true, setDatesOk := true, execSearchOk := true
    pages := pagesC8, maxPages := 1, validateKeeps := fun l => l, t0 := 5, t1 := 9 }

/-- Click behaviour for the retry-statistics claim: the first attempt is
intercepted, the second succeeds (one retry performed). -/
def oracleC9 : Nat → ClickOutcome :=
  fun n => if n = 0 then ClickOutcome.intercepted else ClickOutcome.success

/-- Record with only a title, for category attainability. -/
def mkTituloRow (t : String) : RawRecord :=
  { proyecto := none, fecha := none, titulo := some t
    estado := none, proponente := none, autores := none }

/-- The exact range of the `tipo_proyecto` column: the ten named categories,
`OTROS`, and the sentinel `DESCONOCIDO`. -/
def tipoRange : List String :=
  ["EDUCACION", "SALUD", "TRABAJO", "ECONOMIA", "INFRAESTRUCTURA", "CULTURA",
   "AMBIENTE", "SEGURIDAD", "SOCIAL", "ADMINISTRATIVO", "OTROS", "DESCONOCIDO"]

/-- The specification's enumerated category set: the ten names plus `OTROS`. -/
def specCatSet : List String :=
  ["EDUCACION", "SALUD", "TRABAJO", "ECONOMIA", "INFRAESTRUCTURA", "CULTURA",
   "AMBIENTE", "SEGURIDAD", "SOCIAL", "ADMINISTRATIVO", "OTROS"]

/-- Author token list as computed inside `validate_autores`: split the stripped
text on commas and strip each piece. -/
def authTokensOf (s : String) : List (List Char) :=
  (splitCommaL (pyStripL s.data)).map pyStripL

/-- The two batch-level warning lists of `validate_autores` (short text and
test placeholder), used to state its characterization compactly. -/
def wpre (a : String) : List String :=
  (if (pyStripL a.data).length < 3 then ["Lista de autores muy corta"] else []) ++
  (if containsL (pyLowerL (pyStripL a.data)) "test".data ||
      containsL (pyLowerL (pyStripL a.data)) "prueba".data then
    ["Lista de autores parece ser de prueba"]
  else [])

/-! ## Helper lemmas -/

/-- A digit character is not whitespace. -/
theorem not_ws_of_digit {c : Char} (h : isDigitCh c = true) : isWsCh c = false := by
  simp only [isDigitCh, Bool.and_eq_true, decide_eq_true_eq] at h
  simp only [isWsCh, Bool.or_eq_false_iff, decide_eq_false_iff_not]
  omega

/-- The slash is not whitespace. -/
theorem not_ws_slash : isWsCh '/' = false := by decide

/-- Right stripping is the identity on whitespace-free lists. -/
theorem rstripL_eq_self {l : List Char} (h : ∀ c ∈ l, isWsCh c = false) :
    rstripL l = l := by
  induction l with
  | nil => rfl
  | cons c cs ih =>
    have hc := h c (by simp)
    have ih2 := ih (fun x hx => h x (by simp [hx]))
    simp [rstripL, ih2, hc]

/-- Python strip is the identity on whitespace-free lists. -/
theorem pyStripL_eq_self {l : List Char} (h : ∀ c ∈ l, isWsCh c = false) :
    pyStripL l = l := by
  have hdrop : l.dropWhile isWsCh = l := by
    cases l with
    | nil => rfl
    | cons c cs => simp [List.dropWhile, h c (by simp)]
  simp [pyStripL, hdrop, rstripL_eq_self h]

set_option maxHeartbeats 3000000 in
/-- A successful strptime parse forces a whitespace-free input, so stripping
the input first cannot change the outcome. -/
theorem parse_strip {l : List Char} {v : Nat × Nat × Nat}
    (h : parseStrptimeDMY l = some v) : pyStripL l = l := by
  unfold parseStrptimeDMY at h
  split at h
  case h_1 a b c d e f g h4 =>
    split at h
    case isTrue hc =>
      simp only [dayOk2, monOk2, dig19, year4, isDigitCh, Bool.and_eq_true,
        decide_eq_true_eq] at hc
      refine pyStripL_eq_self (fun x hx => ?_)
      simp only [List.mem_cons, List.not_mem_nil, or_false] at hx
      rcases hx with rfl | rfl | rfl | rfl | rfl | rfl | rfl | rfl | rfl | rfl <;>
        first
        | exact not_ws_slash
        | (simp only [isWsCh, Bool.or_eq_false_iff, decide_eq_false_iff_not]; omega)
    case isFalse => exact absurd h (by simp)
  case h_2 a b c e f g h4 =>
    split at h
    case isTrue hc =>
      simp only [dayOk2, monOk2, dig19, year4, isDigitCh, Bool.and_eq_true,
        decide_eq_true_eq] at hc
      refine pyStripL_eq_self (fun x hx => ?_)
      simp only [List.mem_cons, List.not_mem_nil, or_false] at hx
      rcases hx with rfl | rfl | rfl | rfl | rfl | rfl | rfl | rfl | rfl <;>
        first
        | exact not_ws_slash
        | (simp only [isWsCh, Bool.or_eq_false_iff, decide_eq_false_iff_not]; omega)
    case isFalse => exact absurd h (by simp)
  case h_3 a c d e f g h4 =>
    split at h
    case isTrue hc =>
      simp only [dayOk2, monOk2, dig19, year4, isDigitCh, Bool.and_eq_true,
        decide_eq_true_eq] at hc
      refine pyStripL_eq_self (fun x hx => ?_)
      simp only [List.mem_cons, List.not_mem_nil, or_false] at hx
      rcases hx with rfl | rfl | rfl | rfl | rfl | rfl | rfl | rfl | rfl <;>
        first
        | exact not_ws_slash
        | (simp only [isWsCh, Bool.or_eq_false_iff, decide_eq_false_iff_not]; omega)
    case isFalse => exact absurd h (by simp)
  case h_4 a c e f g h4 =>
    split at h
    case isTrue hc =>
      simp only [dayOk2, monOk2, dig19, year4, isDigitCh, Bool.and_eq_true,
        decide_eq_true_eq] at hc
      refine pyStripL_eq_self (fun x hx => ?_)
      simp only [List.mem_cons, List.not_mem_nil, or_false] at hx
      rcases hx with rfl | rfl | rfl | rfl | rfl | rfl | rfl | rfl <;>
        first
        | exact not_ws_slash
        | (simp only [isWsCh, Bool.or_eq_false_iff, decide_eq_false_iff_not]; omega)
    case isFalse => exact absurd h (by simp)
  case h_5 => exact absurd h (by simp)

/-- If the date pattern matches at index `i` and at no earlier index, the
`re.search` scan returns exactly that match. -/
theorem firstDate_of_leftmost (l : List Char) :
    ∀ i d, dateAt (l.drop i) = some d → (∀ j, j < i → dateAt (l.drop j) = none) →
      firstDate l = some d := by
  induction l with
  | nil =>
    intro i d hi _
    simp only [List.drop_nil] at hi
    exact absurd hi (by simp [dateAt])
  | cons c cs ih =>
    intro i d hi hmin
    cases i with
    | zero =>
      simp only [List.drop_zero] at hi
      simp [firstDate, hi]
    | succ i =>
      have h0 : dateAt (c :: cs) = none := by
        have := hmin 0 (Nat.succ_pos _)
        simpa using this
      simp only [firstDate, h0]
      exact ih i d (by simpa using hi)
        (fun j hj => by simpa using hmin (j + 1) (by omega))

/-- If the date pattern matches at no index, the scan returns nothing. -/
theorem firstDate_eq_none (l : List Char)
    (h : ∀ i, dateAt (l.drop i) = none) : firstDate l = none := by
  induction l with
  | nil => rfl
  | cons c cs ih =>
    have h0 : dateAt (c :: cs) = none := by simpa using h 0
    simp only [firstDate, h0]
    exact ih (fun i => by simpa using h (i + 1))

/-- No match inside the list means no match anywhere (dropping past the end
yields the empty list, which the pattern rejects). -/
theorem noDate_all (l : List Char)
    (h : ∀ i, i < l.length → dateAt (l.drop i) = none) :
    ∀ i, dateAt (l.drop i) = none := by
  intro i
  by_cases hi : i < l.length
  · exact h i hi
  · rw [List.drop_eq_nil_of_le (by omega)]
    rfl

/-- The token loop of `validate_autores` keeps exactly the tokens passing the
Python condition and warns, in order, about each dropped one. -/
theorem authorsLoop_eq (ts : List (List Char)) :
    authorsLoop ts =
      (ts.filter authTokOk, (ts.filter (fun t => !authTokOk t)).map authMsg) := by
  induction ts with
  | nil => rfl
  | cons t ts ih =>
    by_cases h : authTokOk t = true
    · simp [authorsLoop, ih, List.filter, h]
    · simp only [Bool.not_eq_true] at h
      simp [authorsLoop, ih, List.filter, h]

/-- The Python keep condition `autor and len(autor) > 2` is just the length test. -/
theorem authTokOk_eq : authTokOk = fun t => decide (2 < t.length) := by
  funext t
  cases t with
  | nil => simp [authTokOk]
  | cons c cs => simp [authTokOk, List.isEmpty]

/-- The category loop yields either the fallback or the name of a table entry. -/
theorem findCat_mem (cats : List (String × List String)) (up : List Char) :
    findCat cats up = "OTROS" ∨ findCat cats up ∈ cats.map Prod.fst := by
  induction cats with
  | nil => left; rfl
  | cons p rest ih =>
    obtain ⟨name, kws⟩ := p
    by_cases h : kws.any (fun k => containsL up k.data) = true
    · right; simp [findCat, h]
    · simp only [Bool.not_eq_true] at h
      rcases ih with h2 | h2
      · left; simpa [findCat, h] using h2
      · right
        simp only [findCat, h, Bool.false_eq_true, if_false, List.map_cons, List.mem_cons]
        exact Or.inr h2

/-- The classifier always lands in the twelve-value range. -/
theorem clasificar_mem (t : Option String) : clasificar_tipo_proyecto t ∈ tipoRange := by
  unfold clasificar_tipo_proyecto
  by_cases h : vblank t = true
  · simp only [h, if_true]; decide
  · simp only [Bool.not_eq_true] at h
    simp only [h, Bool.false_eq_true, if_false]
    rcases findCat_mem categorias (pyUpperL (strOf t).data) with h2 | h2
    · rw [h2]; decide
    · have hall : ∀ x ∈ categorias.map Prod.fst, x ∈ tipoRange := by decide
      exact hall _ h2

/-- One full loop iteration of `_scrape_all_pages` that advances to the next page. -/
theorem sap_advance (e : PageEnv) (maxPages fuel pageNum : Nat) (acc : List RawRecord)
    (st : RunStats) (hle : pageNum ≤ maxPages) (hr : e.pageRaises pageNum = false)
    (hrows : (e.rows pageNum).isEmpty = false) (hn : has_next_page e pageNum = true)
    (hg : e.goNextOk pageNum = true) :
    scrapeAllPagesAux e maxPages (fuel + 1) pageNum acc st =
      scrapeAllPagesAux e maxPages fuel (pageNum + 1) (acc ++ e.rows pageNum)
        { st with pages_scraped := st.pages_scraped + 1 } := by
  have hnl : ¬ maxPages < pageNum := by omega
  simp [scrapeAllPagesAux, hnl, hr, hrows, hn, hg]

/-- One final loop iteration of `_scrape_all_pages`: the page is scraped and
the loop stops because the next-page control reports no further page. -/
theorem sap_halt (e : PageEnv) (maxPages fuel pageNum : Nat) (acc : List RawRecord)
    (st : RunStats) (hle : pageNum ≤ maxPages) (hr : e.pageRaises pageNum = false)
    (hrows : (e.rows pageNum).isEmpty = false) (hn : has_next_page e pageNum = false) :
    scrapeAllPagesAux e maxPages (fuel + 1) pageNum acc st =
      (acc ++ e.rows pageNum, { st with pages_scraped := st.pages_scraped + 1 }) := by
  have hnl : ¬ maxPages < pageNum := by omega
  simp [scrapeAllPagesAux, hnl, hr, hrows, hn]

/-! ## Claim theorems -/

set_option maxRecDepth 100000 in
set_option maxHeartbeats 2000000 in
/-- Claim C1 (code_bug evidence): running `limpiar_dataframe` and then
`validate_dataframe` on the spec's two-row batch does NOT yield
`valid_records = 1` / `invalid_records = 1` with a surviving record carrying
`partido_politico = "PERU LIBRE"` and `tipo_proyecto = "EDUCACION"`.  The
validator reads the raw columns, so row A's noisy `fecha` is a format error
and row B's empty `proyecto` is an error: both rows are rejected.  Moreover
the cleaning stage itself classifies row A as `DESCONOCIDO` (the party table
variant `Perú Libre` uppercases to the accented `PERÚ LIBRE`, which never
occurs in the unaccented author text) and as `OTROS` (the keyword list has
`EDUCACIÓN`/`EDUCATIVO` but the title says `Educativa`), contradicting the
repository's own tests. -/
theorem C1_scenario_eval :
    pipelineC1 =
      Except.ok ([],
        { total_records := 2, valid_records := 0, invalid_records := 2,
          total_errors := 2, total_warnings := 3,
          field_errors := [("fecha", 1), ("proyecto", 1)],
          field_warnings := [("proyecto", 1), ("titulo", 1), ("autores", 1)] }) ∧
    (validate_record today0 rowA).map RecordResult.errors =
      Except.ok ["fecha: Formato de fecha inválido: Fecha de Presentación15/06/2024"] ∧
    (validate_record today0 rowB).map RecordResult.errors =
      Except.ok ["proyecto: Número de proyecto es requerido"] ∧
    (limpiarRow rowA).partido_politico = some "DESCONOCIDO" ∧
    (limpiarRow rowA).tipo_proyecto = "OTROS" ∧
    (limpiarRow rowA).fecha_limpia = some "15/06/2024" ∧
    (limpiarRow rowA).proyecto_limpio = some "12345/2024-CR" := by
  decide

/-- Claim C2 (counterexample): `partido_politico` IS null for a record with an
empty (or missing) author list, contrary to the claim that it is never null. -/
theorem C2_counterexample :
    (limpiarRow rowC2).partido_politico = none ∧
    extraer_partido_politico (some "") = none ∧
    extraer_partido_politico none = none := by
  decide

/-- Claim C2 (amended): `tipo_proyecto` is indeed never absent — empty/NaN
titles get the sentinel `DESCONOCIDO` — but `extraer_partido_politico` returns
null exactly on empty/NaN author text; for every non-empty author text it
returns a value (the sentinel `DESCONOCIDO` when nothing matches). -/
theorem C2_null_behaviour :
    (∀ a : Option String, extraer_partido_politico a = none ↔ (a = none ∨ a = some "")) ∧
    clasificar_tipo_proyecto none = "DESCONOCIDO" ∧
    clasificar_tipo_proyecto (some "") = "DESCONOCIDO" ∧
    (∀ a : Option String, a ≠ none → a ≠ some "" → ∃ p, extraer_partido_politico a = some p) := by
  have key : ∀ a : Option String, extraer_partido_politico a = none ↔ (a = none ∨ a = some "") := by
    intro a
    constructor
    · intro h
      rcases a with _ | s
      · exact Or.inl rfl
      · by_cases hs : s = ""
        · exact Or.inr (by rw [hs])
        · exfalso
          rcases hfp : findPartido partidos_politicos (pyUpperL (strOf (some s)).data) with _ | p
          · by_cases hind :
              (containsL (pyUpperL (strOf (some s)).data) "INDEPENDIENTE".data ||
               containsL (pyUpperL (strOf (some s)).data) "INDEPENDIENTES".data) = true
            · simp [extraer_partido_politico, vblank, hs, hfp, hind] at h
            · simp only [Bool.not_eq_true] at hind
              simp [extraer_partido_politico, vblank, hs, hfp, hind] at h
          · simp [extraer_partido_politico, vblank, hs, hfp] at h
    · intro h
      rcases h with rfl | rfl <;> rfl
  refine ⟨key, by decide, by decide, fun a h1 h2 => ?_⟩
  refine Option.ne_none_iff_exists'.mp (fun hc => ?_)
  rcases (key a).mp hc with h | h
  · exact h1 h
  · exact h2 h

/-- Claim C2 (witness): a non-empty author text with no table match gets the
sentinel rather than null. -/
theorem C2_witness : ∃ p, extraer_partido_politico (some "Juan") = some p :=
  C2_null_behaviour.2.2.2 (some "Juan") (by decide) (by decide)

/-- Claim C3 (counterexample): when two well-formed dates are embedded, the
function returns the first one, so it does not return "exactly that substring"
for every embedded date substring. -/
theorem C3_counterexample :
    dateAt ("01/02/2003 04/05/2006".data.drop 11) = some "04/05/2006".data ∧
    limpiar_fecha (some "01/02/2003 04/05/2006") = some "01/02/2003" ∧
    ("01/02/2003" : String) ≠ "04/05/2006" := by
  decide

/-- Claim C3 (amended): `limpiar_fecha` returns verbatim the FIRST (leftmost)
embedded `DD/MM/YYYY` substring; and for input with no embedded date pattern
that is not itself parseable as a `%d/%m/%Y` date after trimming, it returns
null. -/
theorem C3_first_match (s : String) :
    (∀ i d, dateAt (s.data.drop i) = some d →
      (∀ j, j < i → dateAt (s.data.drop j) = none) →
      limpiar_fecha (some s) = some (String.mk d)) ∧
    ((∀ i, dateAt (s.data.drop i) = none) →
      parseStrptimeDMY (pyStripL s.data) = none →
      limpiar_fecha (some s) = none) := by
  constructor
  · intro i d hi hmin
    have hne : s ≠ "" := by
      intro heq
      rw [heq] at hi
      simp [dateAt] at hi
    have hfd := firstDate_of_leftmost s.data i d hi hmin
    simp [limpiar_fecha, vblank, hne, strOf, hfd]
  · intro hnone hparse
    by_cases hs : s = ""
    · simp [limpiar_fecha, vblank, hs]
    · have hfd := firstDate_eq_none s.data hnone
      have hp : parseStrptimeDMY s.data = none := by
        by_contra hc
        rcases Option.ne_none_iff_exists'.mp hc with ⟨v, hv⟩
        rw [parse_strip hv] at hparse
        exact absurd hv (by rw [hparse]; simp)
      simp [limpiar_fecha, vblank, hs, strOf, hfd, hp]

/-- Claim C3 (witness): the amended theorem applied at a noisy embedded date
and at a garbage input. -/
theorem C3_witness :
    limpiar_fecha (some "ab01/02/2003cd") = some "01/02/2003" ∧
    limpiar_fecha (some "invalid") = none := by
  constructor
  · have h := (C3_first_match "ab01/02/2003cd").1 2 "01/02/2003".data
      (by decide) (by decide)
    simpa using h
  · exact (C3_first_match "invalid").2
      (noDate_all "invalid".data (by decide)) (by decide)

/-- Claim C4 (code_bug evidence): `_clean_estado` grabs the FIRST run of
uppercase-class characters, so a label-prefixed input yields just the initial
capital of the label — `"Estado: APROBADO"` becomes `"E"`, not `"APROBADO"`
(the repository's own test `test_clean_estado` expects `"APROBADO"`).  The
`estado_limpio` column only uppercases and trims, stripping no prefix; and
`_clean_estado` never uppercases. -/
theorem C4_estado_eval :
    clean_estado "Estado: APROBADO" = "E" ∧
    clean_estado "APROBADO" = "APROBADO" ∧
    estado_limpio_of (some "Estado: APROBADO") = some "ESTADO: APROBADO" ∧
    clean_estado "aprobado" = "aprobado" ∧
    ("E" : String) ≠ "APROBADO" := by
  decide

/-- Claim C5 (counterexample): a record with an empty `proyecto` whose
`fecha` cell is the pandas missing value NaN is NOT classified invalid — the
cross-field step of `validate_record` raises an uncaught `TypeError`
(`strptime` on the truthy float; only `ValueError` is caught), so the record
is never classified at all. -/
theorem C5_counterexample :
    recC5nan.proyecto = some "" ∧
    vblank recC5nan.proyecto = true ∧
    validate_record today0 recC5nan = Except.error strptimeTypeErr := by
  decide

/-- Claim C5 (amended): provided the record's `fecha`, `titulo` and `estado`
cells are strings — on a NaN cell the cross-field step raises an uncaught
`TypeError` or `AttributeError`, so `validate_record` raises instead of
classifying — validation returns a classification, and then a record with an
empty `proyecto`, empty `fecha`, or empty `titulo` is classified invalid with
a per-field error message, while a record whose only defect is an empty
`autores` field (every other field validator reporting no error) is
classified valid with the empty-authors warning. -/
theorem C5_empty_field_rules (today : Nat × Nat × Nat) (r : RawRecord)
    (hf : r.fecha ≠ none) (ht : r.titulo ≠ none) (he : r.estado ≠ none) :
    ∃ res, validate_record today r = Except.ok res ∧
      (vblank r.proyecto = true →
        res.is_valid = false ∧
        "proyecto: Número de proyecto es requerido" ∈ res.errors) ∧
      (vblank r.fecha = true →
        res.is_valid = false ∧
        "fecha: Fecha es requerida" ∈ res.errors) ∧
      (vblank r.titulo = true →
        res.is_valid = false ∧
        "titulo: Título es requerido" ∈ res.errors) ∧
      (vblank r.autores = true →
        (validate_proyecto r.proyecto).errors = [] →
        (validate_fecha r.fecha).errors = [] →
        (validate_titulo r.titulo).errors = [] →
        (validate_estado r.estado).errors = [] →
        (validate_proponente r.proponente).errors = [] →
        res.is_valid = true ∧
        "autores: Lista de autores vacía" ∈ res.warnings) := by
  have hcw : cross_warnings today r = Except.ok (cross_warn_list today r) := by
    simp [cross_warnings, hf, ht, he]
  refine ⟨record_result r (cross_warn_list today r), ?_,
    fun h => ?_, fun h => ?_, fun h => ?_, fun h h1 h2 h3 h4 h5 => ?_⟩
  · unfold validate_record
    rw [hcw]
    rfl
  · have hp : validate_proyecto r.proyecto =
        ⟨false, ["Número de proyecto es requerido"], [], none⟩ := by
      simp [validate_proyecto, h]
    constructor
    · simp [record_result, hp, tagWith]
    · simp only [record_result, hp, tagWith, List.map_cons, List.map_nil,
        List.cons_append, List.nil_append, List.mem_cons]
      left
      decide
  · have hp : validate_fecha r.fecha = ⟨false, ["Fecha es requerida"], [], none⟩ := by
      simp [validate_fecha, h]
    constructor
    · simp [record_result, hp, tagWith]
    · show ("fecha" ++ ": " ++ "Fecha es requerida" : String) ∈
        tagWith "proyecto" (validate_proyecto r.proyecto).errors ++
        tagWith "fecha" (validate_fecha r.fecha).errors ++
        tagWith "titulo" (validate_titulo r.titulo).errors ++
        tagWith "estado" (validate_estado r.estado).errors ++
        tagWith "proponente" (validate_proponente r.proponente).errors ++
        tagWith "autores" (validate_autores r.autores).errors
      exact List.mem_append_left _ (List.mem_append_left _ (List.mem_append_left _
        (List.mem_append_left _ (List.mem_append_right _
          (List.mem_map_of_mem _ (by rw [hp]; simp))))))
  · have hp : validate_titulo r.titulo = ⟨false, ["Título es requerido"], [], none⟩ := by
      simp [validate_titulo, h]
    constructor
    · simp [record_result, hp, tagWith]
    · show ("titulo" ++ ": " ++ "Título es requerido" : String) ∈
        tagWith "proyecto" (validate_proyecto r.proyecto).errors ++
        tagWith "fecha" (validate_fecha r.fecha).errors ++
        tagWith "titulo" (validate_titulo r.titulo).errors ++
        tagWith "estado" (validate_estado r.estado).errors ++
        tagWith "proponente" (validate_proponente r.proponente).errors ++
        tagWith "autores" (validate_autores r.autores).errors
      exact List.mem_append_left _ (List.mem_append_left _ (List.mem_append_left _
        (List.mem_append_right _ (List.mem_map_of_mem _ (by rw [hp]; simp)))))
  · have ha : validate_autores r.autores =
        ⟨true, [], ["Lista de autores vacía"], some []⟩ := by
      simp [validate_autores, h]
    constructor
    · simp [record_result, h1, h2, h3, h4, h5, ha, tagWith]
    · simp only [record_result, ha, tagWith, List.map_cons, List.map_nil,
        List.cons_append, List.nil_append, List.mem_append, List.mem_cons]
      refine Or.inl (Or.inr ?_)
      exact Or.inl (by decide)

/-- Claim C5 (witness): the amended rules evaluated at concrete string-cell
records — an empty-`proyecto` record is classified (no raise) and invalid,
and a record whose only defect is an empty authors cell is classified valid
with the warning. -/
theorem C5_witness :
    (∃ res, validate_record today0 recC5empty = Except.ok res ∧
      res.is_valid = false ∧
      "proyecto: Número de proyecto es requerido" ∈ res.errors) ∧
    (∃ res, validate_record today0 recC5autores = Except.ok res ∧
      res.is_valid = true ∧
      "autores: Lista de autores vacía" ∈ res.warnings) := by
  constructor
  · obtain ⟨res, heq, h1, _h2, _h3, _h4⟩ :=
      C5_empty_field_rules today0 recC5empty (by decide) (by decide) (by decide)
    exact ⟨res, heq, (h1 (by decide)).1, (h1 (by decide)).2⟩
  · obtain ⟨res, heq, _h1, _h2, _h3, h4⟩ :=
      C5_empty_field_rules today0 recC5autores (by decide) (by decide) (by decide)
    have hh := h4 (by decide) (by decide) (by decide) (by decide) (by decide) (by decide)
    exact ⟨res, heq, hh.1, hh.2⟩

/-- Claim C6 (counterexample): when EVERY author token is at most two
characters, the dropped tokens leave no valid author, `validate_autores`
emits an error — not merely a warning — and the record becomes invalid. -/
theorem C6_counterexample :
    (validate_autores (some "ab")).is_valid = false ∧
    (validate_autores (some "ab")).errors = ["No se encontraron autores válidos"] ∧
    authMsg "ab".data ∈ (validate_autores (some "ab")).warnings ∧
    (validate_record today0 recC6).map RecordResult.is_valid = Except.ok false := by
  decide

/-- Claim C6 (amended): for non-empty author text, each token of trimmed
length at most 2 is dropped from the cleaned list with a per-token warning;
the result stays valid — and its only possible error stays away — exactly as
long as at least one token longer than two characters remains; when every
token is that short the validator errors and the record is invalid. -/
theorem C6_short_tokens (a : String) (h : a ≠ "") :
    ((validate_autores (some a)).is_valid = true ↔
      ∃ t ∈ authTokensOf a, 2 < t.length) ∧
    ((validate_autores (some a)).errors = [] ↔
      ∃ t ∈ authTokensOf a, 2 < t.length) ∧
    ((validate_autores (some a)).is_valid = true →
      (validate_autores (some a)).cleaned =
        some (((authTokensOf a).filter authTokOk).map String.mk)) ∧
    (∀ t, t ∈ authTokensOf a → authTokOk t = false →
      authMsg t ∈ (validate_autores (some a)).warnings) := by
  have hb : vblank (some a) = false := by simp [vblank, h]
  have key : validate_autores (some a) =
      if ((authTokensOf a).filter authTokOk).isEmpty then
        ⟨false, ["No se encontraron autores válidos"],
          wpre a ++ ((authTokensOf a).filter (fun t => !authTokOk t)).map authMsg, none⟩
      else
        ⟨true, [],
          wpre a ++ ((authTokensOf a).filter (fun t => !authTokOk t)).map authMsg,
          some (((authTokensOf a).filter authTokOk).map String.mk)⟩ := by
    simp only [validate_autores, hb, Bool.false_eq_true, if_false, strOf,
      authorsLoop_eq, authTokensOf, wpre, List.append_assoc]
  have hiff : (((authTokensOf a).filter authTokOk).isEmpty = false) ↔
      (∃ t ∈ authTokensOf a, 2 < t.length) := by
    rw [authTokOk_eq]
    constructor
    · intro hne
      have hnn : (authTokensOf a).filter (fun t => decide (2 < t.length)) ≠ [] := by
        intro he
        rw [he] at hne
        simp at hne
      obtain ⟨x, hx⟩ := List.exists_mem_of_ne_nil _ hnn
      have hx2 := List.mem_filter.mp hx
      exact ⟨x, hx2.1, by simpa using hx2.2⟩
    · rintro ⟨t, ht, hlen⟩
      have hmem : t ∈ (authTokensOf a).filter (fun t => decide (2 < t.length)) :=
        List.mem_filter.mpr ⟨ht, by simpa using hlen⟩
      cases hE : ((authTokensOf a).filter (fun t => decide (2 < t.length))).isEmpty
      · rfl
      · rw [List.isEmpty_iff] at hE
        rw [hE] at hmem
        simp at hmem
  have hwarn : (validate_autores (some a)).warnings =
      wpre a ++ ((authTokensOf a).filter (fun t => !authTokOk t)).map authMsg := by
    rw [key]
    split <;> rfl
  refine ⟨?_, ?_, ?_, ?_⟩
  · rw [key]
    cases hE : ((authTokensOf a).filter authTokOk).isEmpty
    · simpa [hE] using hiff.mp hE
    · simp only [hE, if_true]
      constructor
      · intro hfalse
        exact absurd hfalse (by simp)
      · intro hex
        have := hiff.mpr hex
        rw [hE] at this
        exact absurd this (by simp)
  · rw [key]
    cases hE : ((authTokensOf a).filter authTokOk).isEmpty
    · simpa [hE] using hiff.mp hE
    · simp only [hE, if_true]
      constructor
      · intro hfalse
        exact absurd hfalse (by simp)
      · intro hex
        have := hiff.mpr hex
        rw [hE] at this
        exact absurd this (by simp)
  · intro hv
    rw [key] at hv ⊢
    cases hE : ((authTokensOf a).filter authTokOk).isEmpty
    · simp [hE]
    · rw [hE] at hv
      exact absurd hv (by simp)
  · intro t ht hok
    rw [hwarn]
    refine List.mem_append_right _ (List.mem_map_of_mem _ ?_)
    exact List.mem_filter.mpr ⟨ht, by rw [hok]; rfl⟩

/-- Claim C6 (witness): a list with one short and one long token — the short
token is dropped with a warning, the long one survives, the record-side list
stays valid. -/
theorem C6_witness :
    (validate_autores (some "ab, Juan Pérez")).is_valid = true ∧
    (validate_autores (some "ab, Juan Pérez")).cleaned = some ["Juan Pérez"] ∧
    authMsg "ab".data ∈ (validate_autores (some "ab, Juan Pérez")).warnings := by
  have h := C6_short_tokens "ab, Juan Pérez" (by decide)
  have hv : (validate_autores (some "ab, Juan Pérez")).is_valid = true :=
    h.1.mpr ⟨"Juan Pérez".data, by decide, by decide⟩
  refine ⟨hv, ?_, h.2.2.2 "ab".data (by decide) (by decide)⟩
  rw [h.2.2.1 hv]
  decide

/-- Claim C7: when every one of the first three pages yields rows without
raising, the next-page control works on pages 1 and 2, and on page 3 it
reports disabled (or `aria-disabled="true"`), the pagination loop of
`_scrape_all_pages` stops on page 3: the run statistics report
`pages_scraped = 3` and the result is exactly the three pages' rows, for
every page cap of at least 3. -/
theorem C7_pagination_stops (e : PageEnv) (maxPages : Nat) (st : RunStats)
    (hmax : 3 ≤ maxPages) (hst : st.pages_scraped = 0)
    (h1r : (e.rows 1).isEmpty = false) (h2r : (e.rows 2).isEmpty = false)
    (h3r : (e.rows 3).isEmpty = false)
    (h1x : e.pageRaises 1 = false) (h2x : e.pageRaises 2 = false)
    (h3x : e.pageRaises 3 = false)
    (hn1 : has_next_page e 1 = true) (hn2 : has_next_page e 2 = true)
    (hdis : e.nextBtnPresent 3 = false ∨ e.nextEnabled 3 = false ∨
      e.nextAria 3 = some "true")
    (hg1 : e.goNextOk 1 = true) (hg2 : e.goNextOk 2 = true) :
    (scrape_all_pages e maxPages st).2.pages_scraped = 3 ∧
    (scrape_all_pages e maxPages st).1 = e.rows 1 ++ e.rows 2 ++ e.rows 3 := by
  have hn3 : has_next_page e 3 = false := by
    unfold has_next_page
    rcases hdis with hd | hd | hd
    · simp [hd]
    · cases hp : e.nextBtnPresent 3 <;> simp [hp, hd]
    · cases hp : e.nextBtnPresent 3 <;> simp [hp, hd]
  obtain ⟨k, rfl⟩ : ∃ k, maxPages = k + 3 := ⟨maxPages - 3, by omega⟩
  unfold scrape_all_pages
  rw [show k + 3 + 1 = (k + 2) + 1 + 1 from rfl]
  rw [sap_advance e (k + 3) (k + 2 + 1) 1 [] st (by omega) h1x h1r hn1 hg1]
  rw [sap_advance e (k + 3) (k + 2) 2 _ _ (by omega) h2x h2r hn2 hg2]
  obtain ⟨m, hm⟩ : ∃ m, k + 2 = m + 1 := ⟨k + 1, rfl⟩
  rw [hm]
  rw [sap_halt e (k + 3) m 3 _ _ (by omega) h3x h3r hn3]
  refine ⟨by simp [hst], by simp [List.append_assoc]⟩

/-- Claim C7 (witness): the simulated navigator `envC7` (disabled from page 3
on) under a page cap of 10 stops with `pages_scraped = 3`. -/
theorem C7_witness :
    (scrape_all_pages envC7 10 initStats).2.pages_scraped = 3 ∧
    (scrape_all_pages envC7 10 initStats).1 = envC7.rows 1 ++ envC7.rows 2 ++ envC7.rows 3 :=
  C7_pagination_stops envC7 10 initStats (by decide) (by decide) (by decide)
    (by decide) (by decide) (by decide) (by decide) (by decide) (by decide)
    (by decide) (Or.inr (Or.inl (by decide))) (by decide) (by decide)

/-- Claim C8: `scrape()` never surfaces an exception: whatever the steps of
the run do — including any unexpected error raised inside the try block — the
call returns a value; and when the body does raise, the single top-level
handler yields the empty list with `errors_encountered` incremented, the
statistics remaining inspectable. -/
theorem C8_never_raises (env : ScrapeEnv) (st0 : RunStats) :
    (∃ v, scrape env st0 = Except.ok v) ∧
    (∀ e st, scrapeBody env { st0 with start_time := some env.t0 } = (Except.error e, st) →
      scrape env st0 =
        Except.ok ([], { st with errors_encountered := st.errors_encountered + 1 })) := by
  constructor
  · unfold scrape
    dsimp only
    rcases hb : scrapeBody env { st0 with start_time := some env.t0 } with ⟨r, st⟩
    cases r with
    | ok ps => exact ⟨(ps, st), rfl⟩
    | error e =>
      exact ⟨([], { st with errors_encountered := st.errors_encountered + 1 }), rfl⟩
  · intro e st hb
    unfold scrape
    dsimp only
    simp only [hb]

/-- Claim C8 (witness): a run whose page-load wait raises is converted into
an empty result with one counted error and inspectable statistics. -/
theorem C8_witness :
    scrape envC8 initStats =
      Except.ok ([],
        { pages_scraped := 0, projects_found := 0, errors_encountered := 1,
          retries_performed := 0, start_time := some 5, end_time := none }) := by
  have h := (C8_never_raises envC8 initStats).2 "boom"
    { initStats with start_time := some 5 } rfl
  simpa using h

/-- Claim C9 (code_bug evidence): the click loop retries — here one retry
after an intercepted first attempt — yet the statistics dict is never updated:
`get_statistics` still reports `retries_performed = 0` although 1 retry was
performed. -/
theorem C9_retries_not_counted :
    safe_click oracleC9 3 initStats = (true, initStats, 1) ∧
    (get_statistics (safe_click oracleC9 3 initStats).2.1).1.retries_performed = 0 ∧
    (safe_click oracleC9 3 initStats).2.2 = 1 ∧
    (0 : Nat) ≠ 1 := by
  decide

/-- Claim C10: empty, missing, or garbage-collapsed titles get the sentinel
`DESCONOCIDO`, a value outside the spec's ten-plus-`OTROS` set; the
`tipo_proyecto` column of `limpiar_dataframe` always lands in the twelve-value
range, and every one of those twelve values is attained by some row. -/
theorem C10_tipo_range :
    clasificar_tipo_proyecto none = "DESCONOCIDO" ∧
    clasificar_tipo_proyecto (some "") = "DESCONOCIDO" ∧
    "DESCONOCIDO" ∉ specCatSet ∧
    (∀ r : RawRecord, (limpiarRow r).tipo_proyecto ∈ tipoRange) ∧
    (∀ v, v ∈ tipoRange → ∃ r : RawRecord, (limpiarRow r).tipo_proyecto = v) := by
  refine ⟨by decide, by decide, by decide, fun r => ?_, fun v hv => ?_⟩
  · show clasificar_tipo_proyecto (some (limpiar_titulo r.titulo)) ∈ tipoRange
    exact clasificar_mem _
  · simp only [tipoRange, List.mem_cons, List.not_mem_nil, or_false] at hv
    rcases hv with rfl | rfl | rfl | rfl | rfl | rfl | rfl | rfl | rfl | rfl | rfl | rfl
    · exact ⟨mkTituloRow "EDUCACIÓN", by decide⟩
    · exact ⟨mkTituloRow "SALUD", by decide⟩
    · exact ⟨mkTituloRow "TRABAJO", by decide⟩
    · exact ⟨mkTituloRow "ECONOMÍA", by decide⟩
    · exact ⟨mkTituloRow "PUENTE", by decide⟩
    · exact ⟨mkTituloRow "PATRIMONIO", by decide⟩
    · exact ⟨mkTituloRow "ECOLOGÍA", by decide⟩
    · exact ⟨mkTituloRow "DELITO", by decide⟩
    · exact ⟨mkTituloRow "POBREZA", by decide⟩
    · exact ⟨mkTituloRow "NOMBRAMIENTO", by decide⟩
    · exact ⟨mkTituloRow "ZZZ", by decide⟩
    · exact ⟨mkTituloRow "", by decide⟩

/-- Claim C10 (witness): the attainability half applied at `SALUD`. -/
theorem C10_witness : ∃ r : RawRecord, (limpiarRow r).tipo_proyecto = "SALUD" :=
  C10_tipo_range.2.2.2.2 "SALUD" (by decide)
